import Mathlib

/-!
Shallow embedding of `LLMintegration/vectorstore_utils.py` (dormitory_backend).

The module wraps an external vector index (Chroma) behind five public
operations: `add_document_to_vectorstore`, `delete_document_from_vectorstore`,
`search_vectorstore`, `semantic_search` and `search_by_vector`.  The vector
index, the embedding function and the text splitter are external
collaborators; they are modelled as function-valued parameters (a
`VectorStore` record of fallible operations, and a `split` function).
Python values appearing in chunk metadata are modelled by `MetaVal`
(strings and ints — the two shapes the code reads), Python `int(...)`
by `pyIntParse` / `pyInt`, Python truthiness by explicit emptiness /
zero tests exactly where the code relies on it.
-/

/-- A metadata value as the code consumes it: a string or an int. -/
inductive MetaVal where
  | str (s : String)
  | int (n : Int)
deriving DecidableEq, Repr

/-- A Python dict of metadata, modelled as an association list with
first-match lookup (Python dicts have unique keys). -/
abbrev Meta := List (String × MetaVal)

/-- `d.get(k)` on a Python dict: first binding of `k`, if any. -/
def metaGet : Meta → String → Option MetaVal
  | [], _ => none
  | (k', v) :: rest, k => if k' = k then some v else metaGet rest k

/-- `d[k] = v` on a Python dict: replace in place if the key is present,
otherwise append at the end (insertion order is preserved). -/
def dictSet : Meta → String → MetaVal → Meta
  | [], k, v => [(k, v)]
  | (k', v') :: rest, k, v =>
    if k' = k then (k, v) :: rest else (k', v') :: dictSet rest k v

/-- A langchain `Document`: page content plus metadata. -/
structure Document where
  page_content : String
  metadata : Meta
deriving DecidableEq, Repr

/-- `s.startswith(p)` (Python). -/
def strStartsWith (s p : String) : Bool := List.isPrefixOf p.data s.data

/-- Python whitespace characters recognised by `str.strip()` (ASCII range,
which is all the code ever meets). -/
def isPySpace (c : Char) : Bool :=
  c == ' ' || c == '\t' || c == '\n' || c == '\r' || c == '\x0b' || c == '\x0c'

/-- `str.strip()` on the underlying character list. -/
def pyStripChars (cs : List Char) : List Char :=
  ((cs.dropWhile isPySpace).reverse.dropWhile isPySpace).reverse

/-- `s.strip()` (Python). -/
def pyStrip (s : String) : String := String.mk (pyStripChars s.data)

/-- Helper of `splitOnUnderscore`: accumulates the current piece (reversed). -/
def splitUndAux : List Char → List Char → List String
  | [], acc => [String.mk acc.reverse]
  | c :: cs, acc =>
    if c = '_' then String.mk acc.reverse :: splitUndAux cs []
    else splitUndAux cs (c :: acc)

/-- `s.split("_")` (Python: non-collapsing split on every underscore;
`"a_".split("_") == ["a", ""]`, `"".split("_") == [""]`). -/
def splitOnUnderscore (s : String) : List String := splitUndAux s.data []

/-- Decimal value of a digit list (used after an all-digits check). -/
def digitsToNat (cs : List Char) : Nat :=
  cs.foldl (fun acc c => acc * 10 + (c.toNat - '0'.toNat)) 0

/-- Python `int(s)` on a string: strip whitespace, optional sign, then a
non-empty run of decimal digits; anything else raises `ValueError`,
modelled as `none`. -/
def pyIntParseChars (cs : List Char) : Option Int :=
  match pyStripChars cs with
  | [] => none
  | c :: rest =>
    let signed : Bool × List Char :=
      if c = '-' then (true, rest)
      else if c = '+' then (false, rest)
      else (false, c :: rest)
    if signed.2 ≠ [] ∧ signed.2.all Char.isDigit then
      some (if signed.1 then -(digitsToNat signed.2 : Int) else (digitsToNat signed.2 : Int))
    else none

/-- Python `int(s)` for a string argument. -/
def pyIntParse (s : String) : Option Int := pyIntParseChars s.data

/-- Python `int(x)` on a metadata value: identity on ints, parse on strings. -/
def pyInt : MetaVal → Option Int
  | .int n => some n
  | .str s => pyIntParse s

/-- Python truthiness of a metadata value (`if post_id_str:`). -/
def truthyV : MetaVal → Bool
  | .str s => s ≠ ""
  | .int n => n ≠ 0

-- Metadata keys for linking chunks to original documents (module constants).

def ORIGINAL_DOC_ID_KEY : String := "original_doc_id"

def CHUNK_INDEX_KEY : String := "chunk_index"

/-- An error raised by a collaborator (message of the Python exception). -/
abbrev PyErr := String

/-- The external Chroma vector store, as the five operations the module
invokes on it.  Every operation can raise (`Except.error`). -/
structure VectorStore where
  similarity_search : String → Nat → Except PyErr (List Document)
  max_marginal_relevance_search : String → Nat → Nat → Rat → Except PyErr (List Document)
  similarity_search_by_vector : List Rat → Nat → Except PyErr (List Document)
  max_marginal_relevance_search_by_vector : List Rat → Nat → Nat → Rat → Except PyErr (List Document)
  add_documents : List Document → List String → Except PyErr Unit
  delete : Meta → Except PyErr Unit

-- ---------------------------------------------------------------------------
-- add_document_to_vectorstore (vectorstore_utils.py lines 84-141)
-- ---------------------------------------------------------------------------

/-- `f"{original_doc_id}_chunk_{i}"` (line 114). -/
def chunk_db_id (original_doc_id : String) (i : Nat) : String :=
  original_doc_id ++ "_chunk_" ++ toString i

/-- `{**metadata, ORIGINAL_DOC_ID_KEY: original_doc_id, CHUNK_INDEX_KEY: i}`
(lines 117-121): the caller metadata, then the two reserved keys set last,
so they override caller entries under the same keys. -/
def chunk_metadata (metadata : Meta) (original_doc_id : String) (i : Nat) : Meta :=
  dictSet (dictSet metadata ORIGINAL_DOC_ID_KEY (.str original_doc_id))
    CHUNK_INDEX_KEY (.int i)

/-- The `for i, chunk_text in enumerate(text_chunks)` loop (lines 112-125),
started at counter `i`: the list of `(chunk_db_id, Document)` pairs. -/
def buildChunkEntries (original_doc_id : String) (metadata : Meta) :
    List String → Nat → List (String × Document)
  | [], _ => []
  | t :: ts, i =>
    (chunk_db_id original_doc_id i,
      ⟨t, chunk_metadata metadata original_doc_id i⟩)
      :: buildChunkEntries original_doc_id metadata ts (i + 1)

/-- Observable outcome of `add_document_to_vectorstore` (a `void` function:
what it did to the collaborator, and whether an exception was absorbed). -/
inductive AddResult where
  | skippedEmptyText
  | skippedNoChunks
  | nothingToAdd
  | inserted (docs : List Document) (ids : List String)
  | errorAbsorbed (docs : List Document) (ids : List String) (e : PyErr)
deriving DecidableEq, Repr

/-- `add_document_to_vectorstore` (lines 84-141).  `split` is the
`RecursiveCharacterTextSplitter.split_text` collaborator. -/
def add_document_to_vectorstore (split : String → List String) (vs : VectorStore)
    (original_doc_id : String) (text_content : String) (metadata : Meta) : AddResult :=
  if text_content = "" ∨ pyStrip text_content = "" then .skippedEmptyText
  else
    let text_chunks := split text_content
    if text_chunks.isEmpty then .skippedNoChunks
    else
      let entries := buildChunkEntries original_doc_id metadata text_chunks 0
      let documents_to_add := entries.map Prod.snd
      let chunk_ids_for_db := entries.map Prod.fst
      if documents_to_add.isEmpty then .nothingToAdd
      else
        match vs.add_documents documents_to_add chunk_ids_for_db with
        | .ok _ => .inserted documents_to_add chunk_ids_for_db
        | .error e => .errorAbsorbed documents_to_add chunk_ids_for_db e

/-- Observable outcome of `delete_document_from_vectorstore`. -/
inductive DeleteResult where
  | done
  | errorAbsorbed (e : PyErr)
deriving DecidableEq, Repr

/-- `delete_document_from_vectorstore` (lines 144-167): metadata-filtered
bulk delete, exceptions absorbed. -/
def delete_document_from_vectorstore (vs : VectorStore)
    (original_doc_id : String) : DeleteResult :=
  match vs.delete [(ORIGINAL_DOC_ID_KEY, .str original_doc_id)] with
  | .ok _ => .done
  | .error e => .errorAbsorbed e

-- ---------------------------------------------------------------------------
-- search_vectorstore / search_by_vector (lines 170-209, 318-359)
-- ---------------------------------------------------------------------------

/-- `search_vectorstore` (lines 170-209): MMR search, empty list on error. -/
def search_vectorstore (vs : VectorStore) (query : String)
    (k : Nat := 5) (fetch_k : Nat := 10) (lambda_mult : Rat := 1/2) : List Document :=
  match vs.max_marginal_relevance_search query k fetch_k lambda_mult with
  | .ok results => results
  | .error _ => []

/-- `search_by_vector` (lines 318-359): MMR or plain similarity search by
raw vector, empty list on error. -/
def search_by_vector (vs : VectorStore) (embedding_vector : List Rat)
    (k : Nat := 10) (fetch_k : Nat := 20) (lambda_mult : Rat := 3/4)
    (use_mmr : Bool := false) : List Document :=
  match
    (if use_mmr then
      vs.max_marginal_relevance_search_by_vector embedding_vector k fetch_k lambda_mult
    else
      vs.similarity_search_by_vector embedding_vector k) with
  | .ok results => results
  | .error _ => []

-- ---------------------------------------------------------------------------
-- semantic_search (lines 212-315)
-- ---------------------------------------------------------------------------

/-- Result of the per-chunk `try` body (lines 264-283): `skip` models a
`continue` (unrecognized kind, `ValueError`, or any other exception caught
by the inner handlers), `resolved p` models falling through to line 285
with `post_id = p` (`none` = Python `None`). -/
inductive StepResult where
  | skip
  | resolved (post_id : Option Int)
deriving DecidableEq, Repr

/-- Parent-id resolution for one chunk's metadata (lines 261-283):
 * `original_doc_id` starting with `"post_"`: parse `split("_")[1]`;
 * starting with `"comment_"`/`"reply_"`: parse the metadata `post_id`
   field when truthy, else leave `post_id = None`;
 * falsy or unrecognized `original_doc_id`: `continue`;
 * a non-string `original_doc_id` hits `AttributeError` on `.startswith`
   when truthy (caught, `continue`) and the `else` branch when falsy. -/
def resolveHit (md : Meta) : StepResult :=
  match metaGet md ORIGINAL_DOC_ID_KEY with
  | some (MetaVal.str original_doc_id) =>
    if original_doc_id ≠ "" ∧ strStartsWith original_doc_id "post_" then
      match (splitOnUnderscore original_doc_id).get? 1 with
      | some part =>
        match pyIntParse part with
        | some n => .resolved (some n)
        | none => .skip
      | none => .skip
    else if original_doc_id ≠ "" ∧
        (strStartsWith original_doc_id "comment_" ∨ strStartsWith original_doc_id "reply_") then
      match metaGet md "post_id" with
      | some v =>
        if truthyV v then
          match pyInt v with
          | some n => .resolved (some n)
          | none => .skip
        else .resolved none
      | none => .resolved none
    else .skip
  | some (MetaVal.int _) => .skip
  | none => .skip

/-- The aggregation loop of `semantic_search` (lines 251-299): walk the hits,
resolve each parent id, and collect first appearances of truthy unseen ids
(`if post_id and post_id not in seen_post_ids`, line 285).  `seen` models the
`seen_post_ids` set. -/
def collectUniquePostIds : List Document → List Int → List Int
  | [], _ => []
  | chunk :: rest, seen =>
    if chunk.metadata.isEmpty then collectUniquePostIds rest seen
    else
      match resolveHit chunk.metadata with
      | .skip => collectUniquePostIds rest seen
      | .resolved none => collectUniquePostIds rest seen
      | .resolved (some post_id) =>
        if post_id ≠ 0 ∧ post_id ∉ seen then
          post_id :: collectUniquePostIds rest (post_id :: seen)
        else collectUniquePostIds rest seen

/-- `semantic_search` (lines 212-315): fetch `(offset + limit) * 5` chunks by
plain similarity search, aggregate unique post ids, slice
`[offset : offset + limit]`; empty list if the collaborator raises. -/
def semantic_search (vs : VectorStore) (query : String)
    (limit : Nat := 20) (offset : Nat := 0) : List Int :=
  let fetch_k_chunks := (offset + limit) * 5
  match vs.similarity_search query fetch_k_chunks with
  | .error _ => []
  | .ok all_results_chunks =>
    let unique_post_ids := collectUniquePostIds all_results_chunks []
    (unique_post_ids.drop offset).take limit

-- ---------------------------------------------------------------------------
-- Specification-side definitions (for stating the aggregation contract)
-- ---------------------------------------------------------------------------

/-- The parent id a hit contributes to the aggregation, if any: `none` when
the hit has no metadata, is skipped, or resolves to a falsy (`None`/`0`) id. -/
def resolvedId (chunk : Document) : Option Int :=
  if chunk.metadata.isEmpty then none
  else
    match resolveHit chunk.metadata with
    | .resolved (some post_id) => if post_id ≠ 0 then some post_id else none
    | _ => none

/-- The stream of contributed parent ids of a hit list, in rank order. -/
def hitIds (chunks : List Document) : List Int := chunks.filterMap resolvedId

/-- First-occurrence deduplication, relative to an already-seen set. -/
def dedupFirstAux : List Int → List Int → List Int
  | [], _ => []
  | x :: xs, seen =>
    if x ∈ seen then dedupFirstAux xs seen else x :: dedupFirstAux xs (x :: seen)

/-- Deduplication of a list keeping the first occurrence of each element. -/
def dedupFirst (l : List Int) : List Int := dedupFirstAux l []

-- ---------------------------------------------------------------------------
-- Concrete collaborators used to instantiate the theorems
-- ---------------------------------------------------------------------------

/-- A vector store whose every operation raises. -/
def failingStore : VectorStore where
  similarity_search := fun _ _ => .error "down"
  max_marginal_relevance_search := fun _ _ _ _ => .error "down"
  similarity_search_by_vector := fun _ _ => .error "down"
  max_marginal_relevance_search_by_vector := fun _ _ _ _ => .error "down"
  add_documents := fun _ _ => .error "down"
  delete := fun _ => .error "down"

/-- A vector store whose every operation succeeds and whose searches return
nothing; used where the value returned by the store is irrelevant. -/
def okStore : VectorStore where
  similarity_search := fun _ _ => .ok []
  max_marginal_relevance_search := fun _ _ _ _ => .ok []
  similarity_search_by_vector := fun _ _ => .ok []
  max_marginal_relevance_search_by_vector := fun _ _ _ _ => .ok []
  add_documents := fun _ _ => .ok ()
  delete := fun _ => .ok ()

/-- A hit chunk of the post with the given textual numeric id. -/
def postChunk (n : String) : Document :=
  ⟨"", [(ORIGINAL_DOC_ID_KEY, .str ("post_" ++ n))]⟩

/-- The fixed ranked content of a deterministic index: ten chunks of post 1
followed by one chunk each of posts 2, 3 and 4. -/
def skewedStream : List Document :=
  List.replicate 10 (postChunk "1") ++ [postChunk "2", postChunk "3", postChunk "4"]

/-- A deterministic, consistent index over `skewedStream`: a request for `k`
nearest neighbours returns the top `k` of the fixed ranking. -/
def skewedStore : VectorStore :=
  { okStore with similarity_search := fun _ k => .ok (skewedStream.take k) }

/-- The fixed ranked content of a deterministic index holding two posts. -/
def twoPostStream : List Document := [postChunk "1", postChunk "2"]

/-- A deterministic, consistent index over `twoPostStream`. -/
def twoPostStore : VectorStore :=
  { okStore with similarity_search := fun _ k => .ok (twoPostStream.take k) }

/-- A store returning a single hit: a comment chunk whose
`original_doc_id` has a non-numeric suffix but whose `post_id` is `"41"`. -/
def oddCommentStore : VectorStore :=
  { okStore with
    similarity_search := fun _ _ =>
      .ok [⟨"", [(ORIGINAL_DOC_ID_KEY, .str "comment_xyz"), ("post_id", .str "41")]⟩] }

/-- A store returning one chunk of post 7. -/
def onePostStore : VectorStore :=
  { okStore with similarity_search := fun _ _ => .ok [postChunk "7"] }

/-- A store whose similarity search distinguishes the requested `k`:
empty at `k = 5`, one hit otherwise. -/
def kSensitiveStore : VectorStore :=
  { okStore with
    similarity_search := fun _ k => .ok (if k = 5 then [] else [postChunk "7"]) }

-- ---------------------------------------------------------------------------
-- Helper lemmas
-- ---------------------------------------------------------------------------

theorem metaGet_dictSet_same (md : Meta) (k : String) (v : MetaVal) :
    metaGet (dictSet md k v) k = some v := by
  induction md with
  | nil => simp [dictSet, metaGet]
  | cons p rest ih =>
    obtain ⟨k', v'⟩ := p
    by_cases h : k' = k
    · subst h; simp [dictSet, metaGet]
    · simp [dictSet, metaGet, h, ih]

theorem metaGet_dictSet_other (md : Meta) (k k₁ : String) (v : MetaVal)
    (h : k₁ ≠ k) : metaGet (dictSet md k v) k₁ = metaGet md k₁ := by
  induction md with
  | nil => simp [dictSet, metaGet, Ne.symm h]
  | cons p rest ih =>
    obtain ⟨k', v'⟩ := p
    by_cases hk : k' = k
    · subst hk; simp [dictSet, metaGet, Ne.symm h]
    · by_cases hk1 : k' = k₁
      · subst hk1; simp [dictSet, metaGet, hk]
      · simp [dictSet, metaGet, hk, hk1, ih]

theorem collect_eq_dedupFirstAux (cs : List Document) :
    ∀ seen, collectUniquePostIds cs seen = dedupFirstAux (hitIds cs) seen := by
  induction cs with
  | nil => intro seen; rfl
  | cons c rest ih =>
    intro seen
    by_cases hm : c.metadata.isEmpty
    · simp [collectUniquePostIds, hitIds, resolvedId, hm, ih, List.filterMap_cons]
    · cases hr : resolveHit c.metadata with
      | skip =>
        simp [collectUniquePostIds, hitIds, resolvedId, hm, hr, ih, List.filterMap_cons]
      | resolved p =>
        cases p with
        | none =>
          simp [collectUniquePostIds, hitIds, resolvedId, hm, hr, ih, List.filterMap_cons]
        | some pid =>
          by_cases hz : pid = 0
          · subst hz
            simp [collectUniquePostIds, hitIds, resolvedId, hm, hr, ih, List.filterMap_cons]
          · by_cases hs : pid ∈ seen
            · simp [collectUniquePostIds, hitIds, resolvedId, dedupFirstAux,
                hm, hr, hz, hs, ih, List.filterMap_cons]
            · simp [collectUniquePostIds, hitIds, resolvedId, dedupFirstAux,
                hm, hr, hz, hs, ih, List.filterMap_cons]

theorem dedupFirstAux_nodup (l : List Int) :
    ∀ seen, (dedupFirstAux l seen).Nodup ∧ ∀ x ∈ dedupFirstAux l seen, x ∉ seen := by
  induction l with
  | nil => intro seen; simp [dedupFirstAux]
  | cons x xs ih =>
    intro seen
    by_cases hx : x ∈ seen
    · simpa [dedupFirstAux, hx] using ih seen
    · obtain ⟨hnd, hnotin⟩ := ih (x :: seen)
      have hd : dedupFirstAux (x :: xs) seen = x :: dedupFirstAux xs (x :: seen) := by
        simp [dedupFirstAux, hx]
      refine ⟨?_, ?_⟩
      · rw [hd, List.nodup_cons]
        exact ⟨fun hmem => (hnotin x hmem) (List.mem_cons_self x seen), hnd⟩
      · intro y hy
        rw [hd] at hy
        rcases List.mem_cons.mp hy with rfl | hy
        · exact hx
        · intro hyseen
          exact (hnotin y hy) (List.mem_cons_of_mem _ hyseen)

theorem collect_take_append (l : List Document) :
    ∀ (n : Nat) (seen : List Int), ∃ t,
      collectUniquePostIds (l.take n) seen ++ t = collectUniquePostIds l seen := by
  induction l with
  | nil => intro n seen; exact ⟨[], by simp [collectUniquePostIds]⟩
  | cons c rest ih =>
    intro n seen
    cases n with
    | zero => exact ⟨collectUniquePostIds (c :: rest) seen, rfl⟩
    | succ m =>
      by_cases hm : c.metadata.isEmpty
      · simpa [collectUniquePostIds, hm, List.take_succ_cons] using ih m seen
      · cases hr : resolveHit c.metadata with
        | skip =>
          simpa [collectUniquePostIds, hm, hr, List.take_succ_cons] using ih m seen
        | resolved p =>
          cases p with
          | none =>
            simpa [collectUniquePostIds, hm, hr, List.take_succ_cons] using ih m seen
          | some pid =>
            by_cases hc : pid ≠ 0 ∧ pid ∉ seen
            · obtain ⟨t, ht⟩ := ih m (pid :: seen)
              exact ⟨t, by simp [collectUniquePostIds, hm, hr, hc, List.take_succ_cons, ht]⟩
            · simpa [collectUniquePostIds, hm, hr, hc, List.take_succ_cons] using ih m seen

theorem zero_not_mem_collect (cs : List Document) :
    ∀ seen, (0 : Int) ∉ collectUniquePostIds cs seen := by
  induction cs with
  | nil => intro seen; simp [collectUniquePostIds]
  | cons c rest ih =>
    intro seen
    by_cases hm : c.metadata.isEmpty
    · simpa [collectUniquePostIds, hm] using ih seen
    · cases hr : resolveHit c.metadata with
      | skip => simpa [collectUniquePostIds, hm, hr] using ih seen
      | resolved p =>
        cases p with
        | none => simpa [collectUniquePostIds, hm, hr] using ih seen
        | some pid =>
          by_cases hc : pid ≠ 0 ∧ pid ∉ seen
          · have hd : collectUniquePostIds (c :: rest) seen
                = pid :: collectUniquePostIds rest (pid :: seen) := by
              simp [collectUniquePostIds, hm, hr, hc]
            rw [hd]
            intro h0
            rcases List.mem_cons.mp h0 with h | h
            · exact hc.1 h.symm
            · exact ih (pid :: seen) h
          · simpa [collectUniquePostIds, hm, hr, hc] using ih seen

theorem buildChunkEntries_spec (oid : String) (md : Meta) (l : List String) :
    ∀ i : Nat,
      (((buildChunkEntries oid md l i).map Prod.snd).map
          (fun d => metaGet d.metadata CHUNK_INDEX_KEY)
            = (List.range' i l.length).map (fun j => some (MetaVal.int (j : Int))))
      ∧ ((buildChunkEntries oid md l i).map Prod.snd).map Document.page_content = l
      ∧ (buildChunkEntries oid md l i).map Prod.fst
          = (List.range' i l.length).map (fun j => chunk_db_id oid j) := by
  induction l with
  | nil => intro i; simp [buildChunkEntries]
  | cons t ts ih =>
    intro i
    obtain ⟨h1, h2, h3⟩ := ih (i + 1)
    refine ⟨?_, ?_, ?_⟩
    · simp [buildChunkEntries, List.range', h1, chunk_metadata, metaGet_dictSet_same]
    · simp [buildChunkEntries, h2]
    · simp [buildChunkEntries, List.range', h3]

/-- Any hit that contributes nothing (no metadata, skipped, or unresolved
parent id) leaves the aggregation of the remaining hits unchanged. -/
theorem collect_cons_of_not_added (c : Document) (rest : List Document) (seen : List Int)
    (h : c.metadata.isEmpty = true ∨ resolveHit c.metadata = .skip
        ∨ resolveHit c.metadata = .resolved none) :
    collectUniquePostIds (c :: rest) seen = collectUniquePostIds rest seen := by
  rcases h with h | h | h
  · simp [collectUniquePostIds, h]
  · by_cases hm : c.metadata.isEmpty
    · simp [collectUniquePostIds, hm]
    · simp [collectUniquePostIds, hm, h]
  · by_cases hm : c.metadata.isEmpty
    · simp [collectUniquePostIds, hm]
    · simp [collectUniquePostIds, hm, h]

-- ---------------------------------------------------------------------------
-- Claim theorems
-- ---------------------------------------------------------------------------

/-- C1: for every query, limit and offset, when the index returns a hit
stream, `semantic_search` returns exactly the slice `[offset : offset+limit]`
of the first-appearance deduplication of the parent ids contributed by the
hit stream (so the result is duplicate-free and ordered by each id's
first-appearance rank), and an `offset` at or beyond the number of unique
ids found yields the empty list. -/
theorem semantic_search_dedup_paginated (vs : VectorStore) (query : String)
    (limit offset : Nat) (chunks : List Document)
    (h : vs.similarity_search query ((offset + limit) * 5) = .ok chunks) :
    semantic_search vs query limit offset
        = ((dedupFirst (hitIds chunks)).drop offset).take limit
    ∧ (semantic_search vs query limit offset).Nodup
    ∧ ((dedupFirst (hitIds chunks)).length ≤ offset →
        semantic_search vs query limit offset = []) := by
  have hcd : collectUniquePostIds chunks [] = dedupFirst (hitIds chunks) :=
    collect_eq_dedupFirstAux chunks []
  have hsem : semantic_search vs query limit offset
      = ((dedupFirst (hitIds chunks)).drop offset).take limit := by
    simp only [semantic_search, h, hcd]
  refine ⟨hsem, ?_, ?_⟩
  · rw [hsem]
    have hnd : (dedupFirst (hitIds chunks)).Nodup :=
      (dedupFirstAux_nodup (hitIds chunks) []).1
    exact hnd.sublist ((List.take_sublist _ _).trans (List.drop_sublist _ _))
  · intro hlen
    rw [hsem, List.drop_eq_nil_of_le hlen, List.take_nil]

/-- C1 witness: one hit of post 7 and a page starting past the unique ids. -/
theorem semantic_search_dedup_paginated_witness :
    semantic_search onePostStore "q" 1 2
        = ((dedupFirst (hitIds [postChunk "7"])).drop 2).take 1
    ∧ (semantic_search onePostStore "q" 1 2).Nodup
    ∧ semantic_search onePostStore "q" 1 2 = [] :=
  have h := semantic_search_dedup_paginated onePostStore "q" 1 2 [postChunk "7"] rfl
  ⟨h.1, h.2.1, h.2.2 (by decide)⟩

/-- C5: `semantic_search` consults the index through exactly one plain
similarity-search request for `(offset + limit) * 5` chunks: two stores
whose similarity search agree on that single request — all their other
requests and all their MMR operations arbitrary — give identical results. -/
theorem semantic_search_requests_exactly (vs₁ vs₂ : VectorStore) (query : String)
    (limit offset : Nat)
    (h : vs₁.similarity_search query ((offset + limit) * 5)
        = vs₂.similarity_search query ((offset + limit) * 5)) :
    semantic_search vs₁ query limit offset = semantic_search vs₂ query limit offset := by
  simp only [semantic_search, h]

/-- C5 witness: two stores that differ everywhere except on the one request
`semantic_search` makes for `limit = 2`, `offset = 0` (namely `k = 10`). -/
theorem semantic_search_requests_exactly_witness :
    semantic_search onePostStore "q" 2 0 = semantic_search kSensitiveStore "q" 2 0 :=
  semantic_search_requests_exactly onePostStore kSensitiveStore "q" 2 0 rfl

/-- C9: collaborator failures are absorbed at every public operation:
the three search operations return the empty list and the two write
operations return silently (the absorbed error is only logged). -/
theorem public_ops_fail_soft (vs : VectorStore) (query : String)
    (limit offset k fetch_k : Nat) (lambda_mult : Rat) (vec : List Rat) (use_mmr : Bool)
    (split : String → List String) (oid text : String) (md : Meta)
    (e₁ e₂ e₃ e₄ e₅ : PyErr)
    (h₁ : vs.similarity_search query ((offset + limit) * 5) = .error e₁)
    (h₂ : vs.max_marginal_relevance_search query k fetch_k lambda_mult = .error e₂)
    (h₃ : (if use_mmr then
            vs.max_marginal_relevance_search_by_vector vec k fetch_k lambda_mult
          else vs.similarity_search_by_vector vec k) = .error e₃)
    (h₄ : vs.add_documents
            ((buildChunkEntries oid md (split text) 0).map Prod.snd)
            ((buildChunkEntries oid md (split text) 0).map Prod.fst) = .error e₄)
    (h₅ : vs.delete [(ORIGINAL_DOC_ID_KEY, .str oid)] = .error e₅)
    (htext : ¬ (text = "" ∨ pyStrip text = ""))
    (hchunks : (split text).isEmpty = false) :
    semantic_search vs query limit offset = []
    ∧ search_vectorstore vs query k fetch_k lambda_mult = []
    ∧ search_by_vector vs vec k fetch_k lambda_mult use_mmr = []
    ∧ add_document_to_vectorstore split vs oid text md
        = .errorAbsorbed ((buildChunkEntries oid md (split text) 0).map Prod.snd)
            ((buildChunkEntries oid md (split text) 0).map Prod.fst) e₄
    ∧ delete_document_from_vectorstore vs oid = .errorAbsorbed e₅ := by
  refine ⟨?_, ?_, ?_, ?_, ?_⟩
  · simp [semantic_search, h₁]
  · simp [search_vectorstore, h₂]
  · simp only [search_by_vector, h₃]
  · have hde : ((buildChunkEntries oid md (split text) 0).map Prod.snd).isEmpty = false := by
      cases hs : split text with
      | nil => simp [hs] at hchunks
      | cons a as => simp [buildChunkEntries]
    simp [add_document_to_vectorstore, htext, hchunks, hde, h₄]
  · simp [delete_document_from_vectorstore, h₅]

/-- C9 witness: a store whose every operation raises. -/
theorem public_ops_fail_soft_witness :
    semantic_search failingStore "q" 1 0 = []
    ∧ search_vectorstore failingStore "q" 2 3 0 = []
    ∧ search_by_vector failingStore [] 2 3 0 false = []
    ∧ add_document_to_vectorstore (fun _ => ["c"]) failingStore "post_1" "x" []
        = .errorAbsorbed
            ((buildChunkEntries "post_1" [] ((fun _ : String => ["c"]) "x") 0).map Prod.snd)
            ((buildChunkEntries "post_1" [] ((fun _ : String => ["c"]) "x") 0).map Prod.fst)
            "down"
    ∧ delete_document_from_vectorstore failingStore "post_1" = .errorAbsorbed "down" :=
  public_ops_fail_soft failingStore "q" 1 0 2 3 0 [] false (fun _ => ["c"]) "post_1" "x" []
    "down" "down" "down" "down" "down" rfl rfl rfl rfl rfl (by decide) rfl

/-- C10: a hit whose parent id resolves to `0` (a `post_0` document, or a
comment/reply whose `post_id` metadata parses to `0`), and a comment/reply
hit whose `post_id` field is the empty string, are silently excluded:
`0` is never an element of the aggregated ids, even though `post_0` parses
to the well-formed numeric id `0`. -/
theorem zero_and_empty_post_id_excluded :
    (∀ (chunks : List Document) (seen : List Int),
        (0 : Int) ∉ collectUniquePostIds chunks seen)
    ∧ resolveHit [(ORIGINAL_DOC_ID_KEY, .str "post_0")] = .resolved (some 0)
    ∧ resolveHit [(ORIGINAL_DOC_ID_KEY, .str "comment_5"), ("post_id", .str "0")]
        = .resolved (some 0)
    ∧ resolveHit [(ORIGINAL_DOC_ID_KEY, .str "comment_5"), ("post_id", .str "")]
        = .resolved none
    ∧ collectUniquePostIds
        [⟨"", [(ORIGINAL_DOC_ID_KEY, .str "post_0")]⟩,
         ⟨"", [(ORIGINAL_DOC_ID_KEY, .str "comment_5"), ("post_id", .str "")]⟩] [] = [] :=
  ⟨fun chunks seen => zero_not_mem_collect chunks seen,
   by decide, by decide, by decide, by decide⟩

/-- C8: indexing empty or whitespace-only text is a no-op: the call returns
having inserted nothing — the vector store is never consulted — and no
error escapes (the store may be arbitrary, even one whose operations all
raise). -/
theorem add_empty_text_noop (split : String → List String) (vs : VectorStore)
    (original_doc_id text_content : String) (metadata : Meta)
    (h : pyStrip text_content = "") :
    add_document_to_vectorstore split vs original_doc_id text_content metadata
      = .skippedEmptyText := by
  simp [add_document_to_vectorstore, h]

/-- C8 witness: whitespace-only text against the always-raising store. -/
theorem add_empty_text_noop_witness :
    add_document_to_vectorstore (fun _ => []) failingStore "post_1" " \t " []
      = .skippedEmptyText :=
  add_empty_text_noop (fun _ => []) failingStore "post_1" " \t " [] (by decide)

/-- C6: the chunk key is `original_doc_id ++ "_chunk_" ++ i`, and the chunk
metadata is the caller metadata extended with the two reserved keys, whose
values override any caller-supplied entries under the same keys while all
other keys are preserved. -/
theorem chunk_identity_builder (metadata : Meta) (original_doc_id : String)
    (i : Nat) (k : String)
    (h₁ : k ≠ ORIGINAL_DOC_ID_KEY) (h₂ : k ≠ CHUNK_INDEX_KEY) :
    chunk_db_id original_doc_id i = original_doc_id ++ "_chunk_" ++ toString i
    ∧ metaGet (chunk_metadata metadata original_doc_id i) ORIGINAL_DOC_ID_KEY
        = some (.str original_doc_id)
    ∧ metaGet (chunk_metadata metadata original_doc_id i) CHUNK_INDEX_KEY
        = some (.int i)
    ∧ metaGet (chunk_metadata metadata original_doc_id i) k = metaGet metadata k := by
  refine ⟨rfl, ?_, ?_, ?_⟩
  · rw [chunk_metadata,
      metaGet_dictSet_other _ _ _ _ (show ORIGINAL_DOC_ID_KEY ≠ CHUNK_INDEX_KEY by decide),
      metaGet_dictSet_same]
  · rw [chunk_metadata, metaGet_dictSet_same]
  · rw [chunk_metadata, metaGet_dictSet_other _ _ _ _ h₂, metaGet_dictSet_other _ _ _ _ h₁]

/-- C6 witness: caller metadata that collides with a reserved key loses;
the unrelated key survives. -/
theorem chunk_identity_builder_witness :
    chunk_db_id "post_32" 2 = "post_32" ++ "_chunk_" ++ toString 2
    ∧ metaGet
        (chunk_metadata [("original_doc_id", .str "EVIL"), ("author", .str "bob")] "post_32" 2)
        ORIGINAL_DOC_ID_KEY = some (.str "post_32")
    ∧ metaGet
        (chunk_metadata [("original_doc_id", .str "EVIL"), ("author", .str "bob")] "post_32" 2)
        CHUNK_INDEX_KEY = some (.int 2)
    ∧ metaGet
        (chunk_metadata [("original_doc_id", .str "EVIL"), ("author", .str "bob")] "post_32" 2)
        "author"
        = metaGet [("original_doc_id", .str "EVIL"), ("author", .str "bob")] "author" :=
  chunk_identity_builder [("original_doc_id", .str "EVIL"), ("author", .str "bob")]
    "post_32" 2 "author" (by decide) (by decide)

/-- C3: a comment/reply hit resolves its parent id from the separately
stored `post_id` metadata field — whatever the numeric suffix of its
`original_doc_id` — and when that field is absent the hit is skipped
(`post_id` stays `None`) and aggregation continues with the remaining
hits. -/
theorem comment_reply_parent_from_post_id (md : Meta) (oid : String)
    (h₁ : metaGet md ORIGINAL_DOC_ID_KEY = some (.str oid))
    (hne : oid ≠ "")
    (hpost : strStartsWith oid "post_" = false)
    (hcr : strStartsWith oid "comment_" = true ∨ strStartsWith oid "reply_" = true) :
    (∀ (s : String) (n : Int), metaGet md "post_id" = some (.str s) →
        pyIntParse s = some n → resolveHit md = .resolved (some n))
    ∧ (metaGet md "post_id" = none →
        resolveHit md = .resolved none
        ∧ ∀ (pc : String) (rest : List Document) (seen : List Int),
            collectUniquePostIds (⟨pc, md⟩ :: rest) seen
              = collectUniquePostIds rest seen) := by
  have hc₁ : ¬ (oid ≠ "" ∧ strStartsWith oid "post_" = true) := by
    rintro ⟨-, hh⟩
    rw [hpost] at hh
    exact Bool.false_ne_true hh
  have hc₂ : oid ≠ "" ∧
      (strStartsWith oid "comment_" = true ∨ strStartsWith oid "reply_" = true) :=
    ⟨hne, hcr⟩
  refine ⟨?_, ?_⟩
  · intro s n hs hn
    have hsne : s ≠ "" := by
      intro he
      subst he
      exact Option.noConfusion hn
    simp only [resolveHit, h₁, if_neg hc₁, if_pos hc₂, hs, truthyV, pyInt, hn]
    simp [hsne]
  · intro habs
    have hres : resolveHit md = .resolved none := by
      simp only [resolveHit, h₁, if_neg hc₁, if_pos hc₂, habs]
    refine ⟨hres, ?_⟩
    intro pc rest seen
    exact collect_cons_of_not_added ⟨pc, md⟩ rest seen (Or.inr (Or.inr hres))

/-- C3 witness: the spec's example (`comment_9` with `post_id = "41"`
resolves `41`, not `9`) and a reply hit whose `post_id` field is absent. -/
theorem comment_reply_parent_from_post_id_witness :
    resolveHit [(ORIGINAL_DOC_ID_KEY, .str "comment_9"), ("post_id", .str "41")]
        = .resolved (some 41)
    ∧ resolveHit [(ORIGINAL_DOC_ID_KEY, .str "reply_3")] = .resolved none :=
  ⟨(comment_reply_parent_from_post_id
      [(ORIGINAL_DOC_ID_KEY, .str "comment_9"), ("post_id", .str "41")] "comment_9"
      rfl (by decide) (by decide) (Or.inl (by decide))).1 "41" 41 rfl (by decide),
   ((comment_reply_parent_from_post_id [(ORIGINAL_DOC_ID_KEY, .str "reply_3")] "reply_3"
      rfl (by decide) (by decide) (Or.inr (by decide))).2 rfl).1⟩

/-- C4 counterexample: a hit whose `originalDocumentId` is `comment_xyz` —
its numeric suffix `xyz` fails to parse as an integer — but whose metadata
`post_id` is `"41"` is NOT skipped: `semantic_search` aggregates it and
returns `[41]`, contradicting the claim that every hit with an unparsable
numeric suffix is skipped. -/
theorem malformed_suffix_claim_counterexample :
    strStartsWith "comment_xyz" "comment_" = true
    ∧ (splitOnUnderscore "comment_xyz").get? 1 = some "xyz"
    ∧ pyIntParse "xyz" = none
    ∧ resolveHit [(ORIGINAL_DOC_ID_KEY, .str "comment_xyz"), ("post_id", .str "41")]
        ≠ .skip
    ∧ semantic_search oddCommentStore "q" 5 0 = [41] :=
  ⟨by decide, by decide, by decide, by decide, by decide⟩

/-- C4 (amended): a hit whose `originalDocumentId` has an unrecognized
prefix is skipped; a `post_`-prefixed hit whose numeric suffix fails to
parse is skipped; a `comment_`/`reply_`-prefixed hit whose `post_id`
metadata is present and truthy but fails to parse is skipped.  (For
comment/reply hits the suffix of the `originalDocumentId` itself is never
parsed — the parent comes from `post_id`.)  In each case no exception
escapes and aggregation continues with the remaining hits. -/
theorem unrecognized_or_malformed_hits_skipped
    (md₁ md₂ md₃ : Meta) (oid₁ oid₂ oid₃ part : String) (v₃ : MetaVal)
    (h₁ : metaGet md₁ ORIGINAL_DOC_ID_KEY = some (.str oid₁))
    (hnp₁ : ¬ (oid₁ ≠ "" ∧ strStartsWith oid₁ "post_" = true))
    (hnc₁ : ¬ (oid₁ ≠ "" ∧
        (strStartsWith oid₁ "comment_" = true ∨ strStartsWith oid₁ "reply_" = true)))
    (h₂ : metaGet md₂ ORIGINAL_DOC_ID_KEY = some (.str oid₂))
    (hp₂ : oid₂ ≠ "" ∧ strStartsWith oid₂ "post_" = true)
    (hpart : (splitOnUnderscore oid₂).get? 1 = some part)
    (hbad₂ : pyIntParse part = none)
    (h₃ : metaGet md₃ ORIGINAL_DOC_ID_KEY = some (.str oid₃))
    (hnp₃ : ¬ (oid₃ ≠ "" ∧ strStartsWith oid₃ "post_" = true))
    (hc₃ : oid₃ ≠ "" ∧
        (strStartsWith oid₃ "comment_" = true ∨ strStartsWith oid₃ "reply_" = true))
    (hpid₃ : metaGet md₃ "post_id" = some v₃)
    (htr₃ : truthyV v₃ = true)
    (hbad₃ : pyInt v₃ = none) :
    (resolveHit md₁ = .skip ∧ resolveHit md₂ = .skip ∧ resolveHit md₃ = .skip)
    ∧ ∀ (pc : String) (rest : List Document) (seen : List Int),
        (collectUniquePostIds (⟨pc, md₁⟩ :: rest) seen = collectUniquePostIds rest seen)
        ∧ (collectUniquePostIds (⟨pc, md₂⟩ :: rest) seen = collectUniquePostIds rest seen)
        ∧ (collectUniquePostIds (⟨pc, md₃⟩ :: rest) seen = collectUniquePostIds rest seen) := by
  have hs₁ : resolveHit md₁ = .skip := by
    simp only [resolveHit, h₁, if_neg hnp₁, if_neg hnc₁]
  have hs₂ : resolveHit md₂ = .skip := by
    simp only [resolveHit, h₂, if_pos hp₂, hpart, hbad₂]
  have hs₃ : resolveHit md₃ = .skip := by
    simp only [resolveHit, h₃, if_neg hnp₃, if_pos hc₃, hpid₃, htr₃, if_true, hbad₃]
  refine ⟨⟨hs₁, hs₂, hs₃⟩, ?_⟩
  intro pc rest seen
  exact ⟨collect_cons_of_not_added ⟨pc, md₁⟩ rest seen (Or.inr (Or.inl hs₁)),
    collect_cons_of_not_added ⟨pc, md₂⟩ rest seen (Or.inr (Or.inl hs₂)),
    collect_cons_of_not_added ⟨pc, md₃⟩ rest seen (Or.inr (Or.inl hs₃))⟩

/-- C4 witness for the amended claim: `widget_3` (unrecognized), `post_x`
(unparsable suffix) and `comment_5` with `post_id = "abc"` are all skipped
while a following `post_7` hit is still aggregated. -/
theorem unrecognized_or_malformed_hits_skipped_witness :
    (resolveHit [(ORIGINAL_DOC_ID_KEY, .str "widget_3")] = .skip
      ∧ resolveHit [(ORIGINAL_DOC_ID_KEY, .str "post_x")] = .skip
      ∧ resolveHit [(ORIGINAL_DOC_ID_KEY, .str "comment_5"), ("post_id", .str "abc")]
          = .skip)
    ∧ ((collectUniquePostIds [⟨"", [(ORIGINAL_DOC_ID_KEY, .str "widget_3")]⟩, postChunk "7"] []
          = collectUniquePostIds [postChunk "7"] [])
      ∧ (collectUniquePostIds [⟨"", [(ORIGINAL_DOC_ID_KEY, .str "post_x")]⟩, postChunk "7"] []
          = collectUniquePostIds [postChunk "7"] [])
      ∧ (collectUniquePostIds
            [⟨"", [(ORIGINAL_DOC_ID_KEY, .str "comment_5"), ("post_id", .str "abc")]⟩,
              postChunk "7"] []
          = collectUniquePostIds [postChunk "7"] [])) :=
  have h := unrecognized_or_malformed_hits_skipped
    [(ORIGINAL_DOC_ID_KEY, .str "widget_3")]
    [(ORIGINAL_DOC_ID_KEY, .str "post_x")]
    [(ORIGINAL_DOC_ID_KEY, .str "comment_5"), ("post_id", .str "abc")]
    "widget_3" "post_x" "comment_5" "x" (.str "abc")
    rfl (by decide) (by decide) rfl (by decide) (by decide) (by decide)
    rfl (by decide) (by decide) rfl (by decide) (by decide)
  ⟨h.1, h.2 "" [postChunk "7"] []⟩

/-- C7: a single indexing call that inserts chunks gives them chunk indices
exactly `0, …, n-1` in the order produced by the splitter, with the
matching chunk keys. -/
theorem inserted_chunk_indices (split : String → List String) (vs : VectorStore)
    (original_doc_id text_content : String) (metadata : Meta)
    (docs : List Document) (ids : List String)
    (h : add_document_to_vectorstore split vs original_doc_id text_content metadata
        = .inserted docs ids) :
    docs.map (fun d => metaGet d.metadata CHUNK_INDEX_KEY)
        = (List.range docs.length).map (fun j => some (MetaVal.int (j : Int)))
    ∧ docs.map Document.page_content = split text_content
    ∧ ids = (List.range docs.length).map (fun j => chunk_db_id original_doc_id j) := by
  simp only [add_document_to_vectorstore] at h
  split at h
  · simp at h
  · split at h
    · simp at h
    · split at h
      · simp at h
      · split at h
        · injection h with hdocs hids
          subst hdocs
          subst hids
          obtain ⟨s₁, s₂, s₃⟩ :=
            buildChunkEntries_spec original_doc_id metadata (split text_content) 0
          have hlen : ((buildChunkEntries original_doc_id metadata (split text_content) 0).map
              Prod.snd).length = (split text_content).length := by
            have := congrArg List.length s₂
            simpa using this
          rw [List.length_map] at hlen
          refine ⟨?_, s₂, ?_⟩
          · rw [List.length_map, hlen, List.range_eq_range']
            exact s₁
          · rw [List.length_map, hlen, List.range_eq_range']
            exact s₃
        · simp at h

/-- C7 witness: a two-chunk split gets indices `0` and `1` and keys
`post_5_chunk_0`, `post_5_chunk_1`. -/
theorem inserted_chunk_indices_witness :
    ([⟨"alpha", [("original_doc_id", .str "post_5"), ("chunk_index", .int 0)]⟩,
      ⟨"beta", [("original_doc_id", .str "post_5"), ("chunk_index", .int 1)]⟩]
        : List Document).map (fun d => metaGet d.metadata CHUNK_INDEX_KEY)
      = (List.range ([⟨"alpha", [("original_doc_id", .str "post_5"), ("chunk_index", .int 0)]⟩,
          ⟨"beta", [("original_doc_id", .str "post_5"), ("chunk_index", .int 1)]⟩]
            : List Document).length).map (fun j => some (MetaVal.int (j : Int)))
    ∧ ([⟨"alpha", [("original_doc_id", .str "post_5"), ("chunk_index", .int 0)]⟩,
        ⟨"beta", [("original_doc_id", .str "post_5"), ("chunk_index", .int 1)]⟩]
          : List Document).map Document.page_content = ["alpha", "beta"]
    ∧ ["post_5_chunk_0", "post_5_chunk_1"]
      = (List.range ([⟨"alpha", [("original_doc_id", .str "post_5"), ("chunk_index", .int 0)]⟩,
          ⟨"beta", [("original_doc_id", .str "post_5"), ("chunk_index", .int 1)]⟩]
            : List Document).length).map (fun j => chunk_db_id "post_5" j) :=
  inserted_chunk_indices (fun _ => ["alpha", "beta"]) okStore "post_5" "x" []
    [⟨"alpha", [("original_doc_id", .str "post_5"), ("chunk_index", .int 0)]⟩,
      ⟨"beta", [("original_doc_id", .str "post_5"), ("chunk_index", .int 1)]⟩]
    ["post_5_chunk_0", "post_5_chunk_1"] (by decide)

/-- C2 counterexample: a deterministic, consistent index (`k` nearest
neighbours are always the top `k` of one fixed ranking) on which
`semanticSearch(q,2,0) ++ semanticSearch(q,2,2) ≠ semanticSearch(q,4,0)`:
the first call's fetch budget of 10 chunks reaches only one unique id, so
the two-call pagination permanently skips the id ranked second. -/
theorem pagination_consistency_counterexample :
    skewedStore.similarity_search "q" 10 = .ok (skewedStream.take 10)
    ∧ skewedStore.similarity_search "q" 20 = .ok (skewedStream.take 20)
    ∧ semantic_search skewedStore "q" 2 0 = [1]
    ∧ semantic_search skewedStore "q" 2 2 = [3, 4]
    ∧ semantic_search skewedStore "q" 4 0 = [1, 2, 3, 4]
    ∧ semantic_search skewedStore "q" 2 0 ++ semantic_search skewedStore "q" 2 2
        ≠ semantic_search skewedStore "q" 4 0 :=
  ⟨rfl, rfl, by decide, by decide, by decide, by decide⟩

/-- C2 (amended): against an unchanged, deterministic, consistent index
(a request for `k` chunks always returns the top `k` of one fixed ranked
stream), and provided the first page's fetch budget of 10 chunks already
yields at least 2 unique ids (the first page is full),
`semanticSearch(q,2,0) ++ semanticSearch(q,2,2) = semanticSearch(q,4,0)`. -/
theorem pagination_consistent_when_first_page_full (vs : VectorStore) (query : String)
    (stream : List Document)
    (hdet : ∀ k, vs.similarity_search query k = .ok (stream.take k))
    (hfull : 2 ≤ (collectUniquePostIds (stream.take 10) []).length) :
    semantic_search vs query 2 0 ++ semantic_search vs query 2 2
      = semantic_search vs query 4 0 := by
  have h10 := hdet 10
  have h20 := hdet 20
  have hA : semantic_search vs query 2 0
      = (collectUniquePostIds (stream.take 10) []).take 2 := by
    simp only [semantic_search]
    norm_num
    rw [h10]
  have hB : semantic_search vs query 2 2
      = ((collectUniquePostIds (stream.take 20) []).drop 2).take 2 := by
    simp only [semantic_search]
    norm_num
    rw [h20]
  have hC : semantic_search vs query 4 0
      = (collectUniquePostIds (stream.take 20) []).take 4 := by
    simp only [semantic_search]
    norm_num
    rw [h20]
  obtain ⟨t, ht⟩ := collect_take_append (stream.take 20) 10 []
  have htt : (stream.take 20).take 10 = stream.take 10 := by
    rw [List.take_take]
    norm_num
  rw [htt] at ht
  rw [hA, hB, hC, ← ht]
  have hhead : ((collectUniquePostIds (stream.take 10) []) ++ t).take 2
      = (collectUniquePostIds (stream.take 10) []).take 2 :=
    List.take_append_of_le_length hfull
  calc (collectUniquePostIds (stream.take 10) []).take 2
        ++ (((collectUniquePostIds (stream.take 10) []) ++ t).drop 2).take 2
      = ((collectUniquePostIds (stream.take 10) []) ++ t).take 2
        ++ (((collectUniquePostIds (stream.take 10) []) ++ t).drop 2).take 2 := by
        rw [hhead]
    _ = ((collectUniquePostIds (stream.take 10) []) ++ t).take (2 + 2) := by
        rw [List.take_add]
    _ = ((collectUniquePostIds (stream.take 10) []) ++ t).take 4 := rfl

/-- C2 witness for the amended claim: a two-post index whose first page is
full. -/
theorem pagination_consistent_when_first_page_full_witness :
    semantic_search twoPostStore "q" 2 0 ++ semantic_search twoPostStore "q" 2 2
      = semantic_search twoPostStore "q" 4 0 :=
  pagination_consistent_when_first_page_full twoPostStore "q" twoPostStream
    (fun _ => rfl) (by decide)
